import Mathlib

/-!
Verification of the key-value store server (repository
`nishantpratap1/key-value-store-golang`) against its natural-language
specification.

The repository contains two near-duplicate server implementations:

* `src/kvs-server.go` — embedded below as namespace `VariantA`;
* `src/kvs_server.go` — embedded below as namespace `VariantB`.

Go maps are modelled extensionally as functions `String → Option KeyValue`;
wall-clock time (`time.Now()`, `time.Since`) is modelled by an explicit
`now : Nat` parameter measured in seconds, with `time.Since ts = now - ts`
(truncated `Nat` subtraction: a clock that moved backwards yields age `0`,
matching a negative Go duration never exceeding a non-negative TTL).
Every definition carries a comment pointing at the Go lines it embeds.
-/

/-- Go `type KeyValue struct { Value string; Timestamp time.Time }`
(`kvs-server.go` lines 16–19, `kvs_server.go` lines 20–23). -/
structure KeyValue where
  value : String
  timestamp : Nat
deriving DecidableEq, Repr

/-- A Go `map[string]KeyValue`, modelled extensionally. -/
def KVMap : Type := String → Option KeyValue

/-- `make(map[string]KeyValue)` — the empty map. -/
def KVMap.empty : KVMap := fun _ => none

/-- Go `m[key] = kv` — insert or replace. -/
def KVMap.insert (m : KVMap) (k : String) (kv : KeyValue) : KVMap :=
  fun q => if q = k then some kv else m q

/-- Go `delete(m, key)`. -/
def KVMap.erase (m : KVMap) (k : String) : KVMap :=
  fun q => if q = k then none else m q

/-- The decoded request envelope
`struct { Action string; Key string; Value string }`
(`kvs-server.go` lines 193–197, `kvs_server.go` lines 229–233). -/
structure Request where
  action : String
  key : String
  value : String

/-- The per-key expiry test of `ClearExpiredKeys`
(`kvs-server.go` line 172, `kvs_server.go` line 151):
the key `k` is expired iff the STORE map holds it and
`time.Since(value.Timestamp) > DefaultTTL`. -/
def expiredAt (store : KVMap) (now ttl : Nat) (k : String) : Bool :=
  match store k with
  | some kv => decide (ttl < now - kv.timestamp)
  | none => false

namespace VariantA

/-- `DefaultTTL = 10 * time.Second` (`kvs-server.go` line 12), in seconds. -/
def DefaultTTL : Nat := 10

/-- The `time.Sleep(5 * time.Second)` between sweeps (`kvs-server.go` line 168). -/
def sweepSleep : Nat := 5

/-- `KeyValueStore.GET` (`kvs-server.go` lines 38–46): absent key yields
`("NOT_FOUND", false)`, present key yields `(item.Value, true)`. -/
def KeyValueStore.GET (data : KVMap) (key : String) : String × Bool :=
  match data key with
  | none => ("NOT_FOUND", false)
  | some item => (item.value, true)

/-- `KeyValueStore.SET` (`kvs-server.go` lines 49–54): unconditional upsert
with a fresh timestamp; always returns `true`. -/
def KeyValueStore.SET (data : KVMap) (key value : String) (now : Nat) :
    KVMap × Bool :=
  (KVMap.insert data key ⟨value, now⟩, true)

/-- `KeyValueStore.UPDATE` (`kvs-server.go` lines 57–66): replace only when
the key is present; returns whether it was. -/
def KeyValueStore.UPDATE (data : KVMap) (key value : String) (now : Nat) :
    KVMap × Bool :=
  match data key with
  | none => (data, false)
  | some _ => (KVMap.insert data key ⟨value, now⟩, true)

/-- `KeyValueStore.DELETE` (`kvs-server.go` lines 69–77): removes a present
key (nil error, modelled `true`), otherwise returns a not-found error
(modelled `false`). -/
def KeyValueStore.DELETE (data : KVMap) (key : String) : KVMap × Bool :=
  match data key with
  | some _ => (KVMap.erase data key, true)
  | none => (data, false)

/-- `type ServerProxy struct { kvs *KeyValueStore; cache map[string]KeyValue; mu sync.RWMutex }`
(`kvs-server.go` lines 80–84). -/
structure ServerProxy where
  kvs : KVMap
  cache : KVMap

/-- `ServerProxy.GET` (`kvs-server.go` lines 96–106): cache hit returns the
cached value with `true`; on a miss it consults the store, populates the
cache when the store found the key, and returns `value, true` — the
literal source returns `true` on BOTH paths, even when the store reported
`found=false`. No lock is taken in this function. -/
def ServerProxy.GET (sp : ServerProxy) (key : String) (now : Nat) :
    ServerProxy × String × Bool :=
  match sp.cache key with
  | some item => (sp, item.value, true)
  | none =>
    let r := KeyValueStore.GET sp.kvs key
    if r.2 then
      ({ sp with cache := KVMap.insert sp.cache key ⟨r.1, now⟩ }, r.1, true)
    else
      (sp, r.1, true)

/-- `ServerProxy.SET` (`kvs-server.go` lines 109–115): write-through to the
store only; the cache-population line is commented out in the source, so
the cache is left untouched. -/
def ServerProxy.SET (sp : ServerProxy) (key value : String) (now : Nat) :
    ServerProxy × Bool :=
  ({ sp with kvs := (KeyValueStore.SET sp.kvs key value now).1 }, true)

/-- `ServerProxy.UPDATE` (`kvs-server.go` lines 118–131): checks existence
against the store's map directly; on success overwrites the store entry
and, when the cache holds the key, the cache entry too. -/
def ServerProxy.UPDATE (sp : ServerProxy) (key value : String) (now : Nat) :
    ServerProxy × Bool :=
  match sp.kvs key with
  | none => (sp, false)
  | some _ =>
    let kvs' := KVMap.insert sp.kvs key ⟨value, now⟩
    let cache' :=
      match sp.cache key with
      | some _ => KVMap.insert sp.cache key ⟨value, now⟩
      | none => sp.cache
    (⟨kvs', cache'⟩, true)

/-- `ServerProxy.DELETE` (`kvs-server.go` lines 134–139): evicts the key
from the cache unconditionally, then deletes from the store; the returned
outcome is the store's (nil error modelled `true`). -/
def ServerProxy.DELETE (sp : ServerProxy) (key : String) :
    ServerProxy × Bool :=
  let cache' := KVMap.erase sp.cache key
  let r := KeyValueStore.DELETE sp.kvs key
  (⟨r.1, cache'⟩, r.2)

/-- One pass of `ClearExpiredKeys` (`kvs-server.go` lines 164–180): under
both locks, every key whose STORE entry has `now - Timestamp > TTL` is
deleted from the store and from the cache; all other keys are untouched
(in particular, cache keys absent from the store are never enumerated). -/
def ClearExpiredKeys (sp : ServerProxy) (now ttl : Nat) : ServerProxy :=
  { kvs := fun k => if expiredAt sp.kvs now ttl k then none else sp.kvs k,
    cache := fun k => if expiredAt sp.kvs now ttl k then none else sp.cache k }

/-- A finite sequence of sweep passes at the given wall-clock instants
(the source's sweeper loop performs one `ClearExpiredKeys` body per wakeup). -/
def runSweeps (sp : ServerProxy) (times : List Nat) (ttl : Nat) : ServerProxy :=
  match times with
  | [] => sp
  | u :: rest => runSweeps (ClearExpiredKeys sp u ttl) rest ttl

/-- The wakeup instants of a sweeper with period `interval` that has been
running up to wall-clock time `t`: it fires at `interval, 2*interval, …`,
i.e. `t / interval` times. -/
def sweepSchedule (t interval : Nat) : List Nat :=
  (List.range (t / interval)).map (fun i => (i + 1) * interval)

/-- `type Response struct { Value string; Found bool; Success bool }`
(`kvs-server.go` lines 183–187). -/
structure Response where
  value : String
  found : Bool
  success : Bool
deriving DecidableEq, Repr

/-- `handleConnection` (`kvs-server.go` lines 189–228): `none` for the
request models a decode failure (the function returns before building a
response). Every decoded request — including one whose action is not
`GET`/`SET`/`DELETE`/`UPDATE` — falls through the `switch` to
`encoder.Encode(response)`, so a response envelope is always produced;
the `default:` branch only logs and leaves `response` zero-valued. The
`DELETE` arm discards the proxy's error and sets `Success = true`
unconditionally. -/
def handleConnection (sp : ServerProxy) (req : Option Request) (now : Nat) :
    ServerProxy × Option Response :=
  match req with
  | none => (sp, none)
  | some r =>
    if r.action = "GET" then
      let g := ServerProxy.GET sp r.key now
      (g.1, some ⟨g.2.1, g.2.2, false⟩)
    else if r.action = "SET" then
      ((ServerProxy.SET sp r.key r.value now).1, some ⟨"", false, true⟩)
    else if r.action = "DELETE" then
      ((ServerProxy.DELETE sp r.key).1, some ⟨"", false, true⟩)
    else if r.action = "UPDATE" then
      let u := ServerProxy.UPDATE sp r.key r.value now
      (u.1, some ⟨"", false, u.2⟩)
    else
      (sp, some ⟨"", false, false⟩)

end VariantA

namespace VariantB

/-- `DefaultTTL = 15 * time.Second` (`kvs_server.go` line 16), in seconds. -/
def DefaultTTL : Nat := 15

/-- The `time.Sleep(2 * time.Second)` between sweeps (`kvs_server.go` line 147). -/
def sweepSleep : Nat := 2

/-- The `time.Sleep(5 * time.Second)` between backup cycles
(`kvs_server.go` line 173). -/
def backupSleep : Nat := 5

/-- `KeyValueStore.GET` (`kvs_server.go` lines 44–52): absent key yields
`("NOT_FOUND", false)`; a PRESENT key yields `(item.Value, false)` — the
literal source returns `false` in its `found` position on both paths. -/
def KeyValueStore.GET (data : KVMap) (key : String) : String × Bool :=
  match data key with
  | none => ("NOT_FOUND", false)
  | some item => (item.value, false)

/-- `KeyValueStore.SET` (`kvs_server.go` lines 54–59): unconditional upsert
with a fresh timestamp; always returns `true`. -/
def KeyValueStore.SET (data : KVMap) (key value : String) (now : Nat) :
    KVMap × Bool :=
  (KVMap.insert data key ⟨value, now⟩, true)

/-- `KeyValueStore.UPDATE` (`kvs_server.go` lines 61–70): absent key yields
`("VALUE_NOT_EXIST", false)` with no entry created; a present key is
replaced and `("VALUE_UPDATED", true)` returned. -/
def KeyValueStore.UPDATE (data : KVMap) (key value : String) (now : Nat) :
    KVMap × String × Bool :=
  match data key with
  | none => (data, "VALUE_NOT_EXIST", false)
  | some _ => (KVMap.insert data key ⟨value, now⟩, "VALUE_UPDATED", true)

/-- `KeyValueStore.DELETE` (`kvs_server.go` lines 72–81): absent key yields
`("VALUE_NOT_EXIST", false)`; a present key is removed and
`("VALUE_DELETED", true)` returned. -/
def KeyValueStore.DELETE (data : KVMap) (key : String) :
    KVMap × String × Bool :=
  match data key with
  | none => (data, "VALUE_NOT_EXIST", false)
  | some _ => (KVMap.erase data key, "VALUE_DELETED", true)

/-- `type ServerProxy struct { kvs *KeyValueStore; cache map[string]KeyValue; mu sync.Mutex }`
(`kvs_server.go` lines 83–87). -/
structure ServerProxy where
  kvs : KVMap
  cache : KVMap

/-- `ServerProxy.GET` (`kvs_server.go` lines 98–111), under `sp.mu`:
cache hit returns the cached value with `true`; on a miss it calls the
store GET, populates the cache only when that reported `ok` (which this
variant's store GET never does), and returns `value, true` — `true` on
both paths regardless of presence. -/
def ServerProxy.GET (sp : ServerProxy) (key : String) (now : Nat) :
    ServerProxy × String × Bool :=
  match sp.cache key with
  | some item => (sp, item.value, true)
  | none =>
    let r := KeyValueStore.GET sp.kvs key
    if r.2 then
      ({ sp with cache := KVMap.insert sp.cache key ⟨r.1, now⟩ }, r.1, true)
    else
      (sp, r.1, true)

/-- `ServerProxy.SET` (`kvs_server.go` lines 113–118): writes the store's
map directly (bypassing `KeyValueStore.SET` and the store lock); the cache
is left untouched; always returns `true`. -/
def ServerProxy.SET (sp : ServerProxy) (key value : String) (now : Nat) :
    ServerProxy × Bool :=
  ({ sp with kvs := KVMap.insert sp.kvs key ⟨value, now⟩ }, true)

/-- `ServerProxy.UPDATE` (`kvs_server.go` lines 120–130): checks existence
via `sp.kvs.GET(key)` and bails out with `("VALUE_NOT_EXIST", false)` when
that reports not-ok; otherwise applies the store UPDATE and overwrites the
cache entry. (Because this variant's store GET always reports `false`,
the success branch is unreachable.) -/
def ServerProxy.UPDATE (sp : ServerProxy) (key value : String) (now : Nat) :
    ServerProxy × String × Bool :=
  let r := KeyValueStore.GET sp.kvs key
  if r.2 then
    (⟨(KeyValueStore.UPDATE sp.kvs key value now).1,
      KVMap.insert sp.cache key ⟨value, now⟩⟩, "VALUE_UPDATED", true)
  else
    (sp, "VALUE_NOT_EXIST", false)

/-- `ServerProxy.DELETE` (`kvs_server.go` lines 132–142): checks existence
via `sp.kvs.GET(key)` and bails out with `("VALUE_NOT_EXIST", false)` when
that reports not-ok; otherwise deletes from the store and evicts the cache
entry. (Again unreachable in this variant for the same reason.) -/
def ServerProxy.DELETE (sp : ServerProxy) (key : String) :
    ServerProxy × String × Bool :=
  let r := KeyValueStore.GET sp.kvs key
  if r.2 then
    (⟨(KeyValueStore.DELETE sp.kvs key).1, KVMap.erase sp.cache key⟩,
     "VALUE_DELETED", true)
  else
    (sp, "VALUE_NOT_EXIST", false)

/-- One pass of `ClearExpiredKeys` (`kvs_server.go` lines 144–160):
identical body to variant A's sweeper. -/
def ClearExpiredKeys (sp : ServerProxy) (now ttl : Nat) : ServerProxy :=
  { kvs := fun k => if expiredAt sp.kvs now ttl k then none else sp.kvs k,
    cache := fun k => if expiredAt sp.kvs now ttl k then none else sp.cache k }

/-- `type BackupSnapshot struct { Data map[string]KeyValue }`
(`kvs_server.go` lines 166–168). -/
structure BackupSnapshot where
  data : KVMap

/-- The snapshot value built inside `BackupKeyValueStore`
(`kvs_server.go` line 175): `BackupSnapshot{Data: kvs.data}`, taken under
the store's read lock. -/
def snapshotOf (kvs : KVMap) : BackupSnapshot := ⟨kvs⟩

/-- The contents of the backup destination `backup.json`. -/
inductive BackupFile where
  | absent
  | truncated
  | holds (s : BackupSnapshot)

/-- One cycle of the `BackupKeyValueStore` loop (`kvs_server.go`
lines 170–193). `createOk` models whether `os.Create(BackupFileName)`
succeeds, `encodeOk` whether `encoder.Encode(snapshot)` succeeds.
`os.Create` truncates the destination in place; each failure path is a
`continue`, never a return, so the second component — whether the loop
goes on to the next cycle — is `true` in every case. -/
def backupCycle (kvs : KVMap) (file : BackupFile) (createOk encodeOk : Bool) :
    BackupFile × Bool :=
  if createOk then
    if encodeOk then (BackupFile.holds (snapshotOf kvs), true)
    else (BackupFile.truncated, true)
  else (file, true)

/-- `type Response struct { Value string; Message string; Found bool; Success bool }`
(`kvs_server.go` lines 219–224). -/
structure Response where
  value : String
  message : String
  found : Bool
  success : Bool
deriving DecidableEq, Repr

/-- `handleConnection` (`kvs_server.go` lines 226–265): `none` for the
request models a decode failure (early return, no response). Every decoded
request — including one with an unrecognized action — falls through the
`switch` to `encoder.Encode(response)`; the `default:` branch only logs,
so the zero-valued `Response` is encoded back. -/
def handleConnection (sp : ServerProxy) (req : Option Request) (now : Nat) :
    ServerProxy × Option Response :=
  match req with
  | none => (sp, none)
  | some r =>
    if r.action = "GET" then
      let g := ServerProxy.GET sp r.key now
      (g.1, some ⟨g.2.1, "", g.2.2, false⟩)
    else if r.action = "SET" then
      ((ServerProxy.SET sp r.key r.value now).1, some ⟨"", "", false, true⟩)
    else if r.action = "DELETE" then
      let d := ServerProxy.DELETE sp r.key
      (d.1, some ⟨"", d.2.1, false, d.2.2⟩)
    else if r.action = "UPDATE" then
      let u := ServerProxy.UPDATE sp r.key r.value now
      (u.1, some ⟨"", u.2.1, false, u.2.2⟩)
    else
      (sp, some ⟨"", "", false, false⟩)

end VariantB

/-- Atomic actions performed by a proxy method, in source order, for the
locking analysis: acquiring/releasing the proxy mutex `sp.mu`, touching
the cache map, and any access to the underlying store (a nested
`KeyValueStore` call or a direct access to `kvs.data`). -/
inductive LockEvent where
  | proxyLock
  | proxyUnlock
  | cacheRead
  | cacheWrite
  | storeCall
deriving DecidableEq, BEq, Repr

/-- After an initial `proxyLock`, the rest of the trace must consist of
non-mutex events and end in exactly one final `proxyUnlock`. -/
def lockHeldTail : List LockEvent → Bool
  | [LockEvent.proxyUnlock] => true
  | e :: rest =>
    (!(e == LockEvent.proxyLock) && !(e == LockEvent.proxyUnlock)) &&
      lockHeldTail rest
  | [] => false

/-- The trace holds the proxy mutex for its full duration: it opens with
`proxyLock`, closes with `proxyUnlock`, and every event in between —
cache accesses and nested store calls included — happens under the lock. -/
def heldThroughout (t : List LockEvent) : Bool :=
  match t with
  | LockEvent.proxyLock :: rest => lockHeldTail rest
  | _ => false

namespace VariantA

/-- Event trace of `ServerProxy.GET` (`kvs-server.go` lines 96–106),
parametrized by which path runs: the function body contains no
`sp.mu.Lock()` at all — it reads the cache, and on a miss calls the store
and (when the store found the key) writes the cache, all unlocked. -/
def GETtrace (hit storeFound : Bool) : List LockEvent :=
  if hit then [LockEvent.cacheRead]
  else
    [LockEvent.cacheRead, LockEvent.storeCall] ++
      (if storeFound then [LockEvent.cacheWrite] else [])

/-- Event trace of `ServerProxy.SET` (`kvs-server.go` lines 109–115):
`sp.mu.Lock()`, nested `kvs.SET`, deferred `sp.mu.Unlock()`. -/
def SETtrace : List LockEvent :=
  [LockEvent.proxyLock, LockEvent.storeCall, LockEvent.proxyUnlock]

/-- Event trace of `ServerProxy.UPDATE` (`kvs-server.go` lines 118–131):
under the lock it reads `kvs.data`, and when the key is present writes
`kvs.data`, reads the cache, and (when cached) writes the cache. -/
def UPDATEtrace (present inCache : Bool) : List LockEvent :=
  [LockEvent.proxyLock, LockEvent.storeCall] ++
    (if present then
      [LockEvent.storeCall, LockEvent.cacheRead] ++
        (if inCache then [LockEvent.cacheWrite] else [])
    else []) ++
    [LockEvent.proxyUnlock]

/-- Event trace of `ServerProxy.DELETE` (`kvs-server.go` lines 134–139):
under the lock it evicts from the cache then calls the store's DELETE. -/
def DELETEtrace : List LockEvent :=
  [LockEvent.proxyLock, LockEvent.cacheWrite, LockEvent.storeCall,
   LockEvent.proxyUnlock]

end VariantA

namespace VariantB

/-- Event trace of `ServerProxy.GET` (`kvs_server.go` lines 98–111):
lock, cache read, and on a miss a nested store GET plus a conditional
cache write, all before the deferred unlock. -/
def GETtrace (hit storeFound : Bool) : List LockEvent :=
  if hit then [LockEvent.proxyLock, LockEvent.cacheRead, LockEvent.proxyUnlock]
  else
    [LockEvent.proxyLock, LockEvent.cacheRead, LockEvent.storeCall] ++
      (if storeFound then [LockEvent.cacheWrite] else []) ++
      [LockEvent.proxyUnlock]

/-- Event trace of `ServerProxy.SET` (`kvs_server.go` lines 113–118):
lock, direct write to `kvs.data`, deferred unlock. -/
def SETtrace : List LockEvent :=
  [LockEvent.proxyLock, LockEvent.storeCall, LockEvent.proxyUnlock]

/-- Event trace of `ServerProxy.UPDATE` (`kvs_server.go` lines 120–130):
lock, nested store GET, and when that reported ok a nested store UPDATE
plus a cache write, then the deferred unlock. -/
def UPDATEtrace (ok : Bool) : List LockEvent :=
  [LockEvent.proxyLock, LockEvent.storeCall] ++
    (if ok then [LockEvent.storeCall, LockEvent.cacheWrite] else []) ++
    [LockEvent.proxyUnlock]

/-- Event trace of `ServerProxy.DELETE` (`kvs_server.go` lines 132–142):
lock, nested store GET, and when that reported ok a nested store DELETE
plus a cache eviction, then the deferred unlock. -/
def DELETEtrace (ok : Bool) : List LockEvent :=
  [LockEvent.proxyLock, LockEvent.storeCall] ++
    (if ok then [LockEvent.storeCall, LockEvent.cacheWrite] else []) ++
    [LockEvent.proxyUnlock]

end VariantB

/-- A freshly constructed variant-A proxy (`NewServerProxy` over
`NewKeyValueStore`): both maps empty. -/
def exEmptyA : VariantA.ServerProxy := ⟨KVMap.empty, KVMap.empty⟩

/-- A freshly constructed variant-B proxy: both maps empty. -/
def exEmptyB : VariantB.ServerProxy := ⟨KVMap.empty, KVMap.empty⟩

/-- Variant-A proxy after `SET("k","a")` at time 0. -/
def exStale1 : VariantA.ServerProxy :=
  (VariantA.ServerProxy.SET exEmptyA "k" "a" 0).1

/-- Variant-A proxy after `SET("k","a")` then `GET("k")` at time 1: the
read missed the cache, fetched `"a"` from the store and cached it. -/
def exStale2 : VariantA.ServerProxy :=
  (VariantA.ServerProxy.GET exStale1 "k" 1).1

/-- Variant-A proxy after `SET("name","John")` at time 0. -/
def exDel1 : VariantA.ServerProxy :=
  (VariantA.ServerProxy.SET exEmptyA "name" "John" 0).1

/-- Variant-B proxy after `SET("name","John")` at time 0. -/
def exSetB : VariantB.ServerProxy :=
  (VariantB.ServerProxy.SET exEmptyB "name" "John" 0).1

/-- A variant-A proxy holding one entry written at time 0 (cached at
time 3) and one written at time 15 (cached at time 16), for exercising
the sweeper with TTL 10. -/
def exSweep : VariantA.ServerProxy :=
  ⟨fun k =>
    if k = "old" then some ⟨"x", 0⟩
    else if k = "fresh" then some ⟨"y", 15⟩
    else none,
   fun k =>
    if k = "old" then some ⟨"x", 3⟩
    else if k = "fresh" then some ⟨"y", 16⟩
    else none⟩

/-- A store whose key `"weird"` holds the literal value `"NOT_FOUND"`. -/
def exMapNF : KVMap :=
  fun k => if k = "weird" then some ⟨"NOT_FOUND", 7⟩ else none

/-- A sweep pass never resurrects a key: a key absent from both maps stays
absent from both. -/
theorem sweepA_dead (sp : VariantA.ServerProxy) (now ttl : Nat) (k : String)
    (h1 : sp.kvs k = none) (h2 : sp.cache k = none) :
    (VariantA.ClearExpiredKeys sp now ttl).kvs k = none ∧
    (VariantA.ClearExpiredKeys sp now ttl).cache k = none := by
  constructor <;> simp [VariantA.ClearExpiredKeys, expiredAt, h1, h2]

/-- A sweep pass at an instant at which the store entry is not yet expired
leaves that key's store entry and cache slot untouched. -/
theorem sweepA_live (sp : VariantA.ServerProxy) (now ttl : Nat) (k : String)
    (kv : KeyValue) (h : sp.kvs k = some kv)
    (hl : ¬ ttl < now - kv.timestamp) :
    (VariantA.ClearExpiredKeys sp now ttl).kvs k = some kv ∧
    (VariantA.ClearExpiredKeys sp now ttl).cache k = sp.cache k := by
  constructor <;> simp [VariantA.ClearExpiredKeys, expiredAt, h, hl]

/-- A sweep pass at an instant at which the store entry is expired removes
the key from the store and from the cache. -/
theorem sweepA_expired (sp : VariantA.ServerProxy) (now ttl : Nat) (k : String)
    (kv : KeyValue) (h : sp.kvs k = some kv)
    (he : ttl < now - kv.timestamp) :
    (VariantA.ClearExpiredKeys sp now ttl).kvs k = none ∧
    (VariantA.ClearExpiredKeys sp now ttl).cache k = none := by
  constructor <;> simp [VariantA.ClearExpiredKeys, expiredAt, h, he]

/-- A key absent from both maps stays absent across any sequence of sweeps. -/
theorem runSweepsA_dead (times : List Nat) (ttl : Nat) (k : String) :
    ∀ sp : VariantA.ServerProxy, sp.kvs k = none → sp.cache k = none →
    (VariantA.runSweeps sp times ttl).kvs k = none ∧
    (VariantA.runSweeps sp times ttl).cache k = none := by
  induction times with
  | nil => intro sp h1 h2; exact ⟨h1, h2⟩
  | cons u rest ih =>
    intro sp h1 h2
    have hd := sweepA_dead sp u ttl k h1 h2
    simpa [VariantA.runSweeps] using ih (VariantA.ClearExpiredKeys sp u ttl) hd.1 hd.2

/-- If every sweep instant is at most `writtenAt + TTL`, the store entry
survives all the sweeps unchanged and the cache slot is untouched. -/
theorem runSweepsA_live (times : List Nat) (ttl : Nat) (k : String)
    (kv : KeyValue) :
    ∀ sp : VariantA.ServerProxy, sp.kvs k = some kv →
    (∀ u ∈ times, u ≤ kv.timestamp + ttl) →
    (VariantA.runSweeps sp times ttl).kvs k = some kv ∧
    (VariantA.runSweeps sp times ttl).cache k = sp.cache k := by
  induction times with
  | nil => intro sp h _; exact ⟨h, rfl⟩
  | cons u rest ih =>
    intro sp h hall
    have hu : u ≤ kv.timestamp + ttl := hall u (by simp)
    have hl : ¬ ttl < u - kv.timestamp := by omega
    have hs := sweepA_live sp u ttl k kv h hl
    have hrest := ih (VariantA.ClearExpiredKeys sp u ttl) hs.1
      (fun v hv => hall v (by simp [hv]))
    refine ⟨?_, ?_⟩
    · simpa [VariantA.runSweeps] using hrest.1
    · have : (VariantA.runSweeps sp (u :: rest) ttl).cache k =
        (VariantA.ClearExpiredKeys sp u ttl).cache k := by
        simpa [VariantA.runSweeps] using hrest.2
      rw [this, hs.2]

/-- If some sweep instant lies strictly after `writtenAt + TTL`, the key is
gone from both the store and the cache once all the sweeps have run. -/
theorem runSweepsA_expired (times : List Nat) (ttl : Nat) (k : String)
    (kv : KeyValue) :
    ∀ sp : VariantA.ServerProxy, sp.kvs k = some kv →
    (∃ u ∈ times, kv.timestamp + ttl < u) →
    (VariantA.runSweeps sp times ttl).kvs k = none ∧
    (VariantA.runSweeps sp times ttl).cache k = none := by
  induction times with
  | nil => intro sp _ hex; simp at hex
  | cons u rest ih =>
    intro sp h hex
    by_cases hcur : ttl < u - kv.timestamp
    · have hs := sweepA_expired sp u ttl k kv h hcur
      have hd := runSweepsA_dead rest ttl k
        (VariantA.ClearExpiredKeys sp u ttl) hs.1 hs.2
      simpa [VariantA.runSweeps] using hd
    · have hs := sweepA_live sp u ttl k kv h hcur
      rcases hex with ⟨v, hv, hvex⟩
      rcases List.mem_cons.mp hv with rfl | hvrest
      · omega
      · have hrest := ih (VariantA.ClearExpiredKeys sp u ttl) hs.1
          ⟨v, hvrest, hvex⟩
        simpa [VariantA.runSweeps] using hrest

/-- C1: the claim states that the proxy-level GET reports `found = true`
iff the key is present in the authoritative store. The code contradicts
this: both variants' `ServerProxy.GET` end in `return value, true`, so on
a cache miss for an ABSENT key the proxy reports `("NOT_FOUND", true)`
although the store holds nothing for the key. This theorem evaluates the
code at the failing input (`GET "name"` against a freshly constructed,
empty proxy) in both variants. -/
theorem C1_found_flag_bug :
    (VariantA.ServerProxy.GET exEmptyA "name" 0).2 = ("NOT_FOUND", true) ∧
    exEmptyA.kvs "name" = none ∧
    (VariantB.ServerProxy.GET exEmptyB "name" 0).2 = ("NOT_FOUND", true) ∧
    exEmptyB.kvs "name" = none := by
  decide

/-- C2 counterexample: read-your-write fails as stated. Against variant A,
after `SET("k","a")`, `GET("k")` (which caches `"a"`), then `SET("k","b")`
— which succeeds — an immediately following `GET("k")` is served from the
cache and returns `("a", true)`, not `("b", true)`: `ServerProxy.SET`
never updates or invalidates an existing cache entry. -/
theorem C2_counterexample :
    (VariantA.ServerProxy.SET exStale2 "k" "b" 2).2 = true ∧
    (VariantA.ServerProxy.GET
      (VariantA.ServerProxy.SET exStale2 "k" "b" 2).1 "k" 3).2 = ("a", true) ∧
    (VariantA.ServerProxy.GET
      (VariantA.ServerProxy.SET exStale2 "k" "b" 2).1 "k" 3).2 ≠ ("b", true) := by
  decide

/-- C2 amended: read-your-write holds exactly when the cache holds no entry
for the key at the moment of the set (first write, or after a delete or
expiry evicted it): `set(k,v)` succeeds and the immediately following
`get(k)` misses the cache, fetches `v` from the store, and returns
`(v, found = true)`. -/
theorem C2_amended (sp : VariantA.ServerProxy) (k v : String) (now now' : Nat)
    (h : sp.cache k = none) :
    (VariantA.ServerProxy.SET sp k v now).2 = true ∧
    (VariantA.ServerProxy.GET
      (VariantA.ServerProxy.SET sp k v now).1 k now').2 = (v, true) := by
  refine ⟨rfl, ?_⟩
  simp [VariantA.ServerProxy.GET, VariantA.ServerProxy.SET,
        VariantA.KeyValueStore.SET, VariantA.KeyValueStore.GET, KVMap.insert, h]

/-- C2 witness: the amended statement at a concrete cache-cold input. -/
theorem C2_witness :
    (VariantA.ServerProxy.SET exEmptyA "k" "v" 5).2 = true ∧
    (VariantA.ServerProxy.GET
      (VariantA.ServerProxy.SET exEmptyA "k" "v" 5).1 "k" 6).2 = ("v", true) :=
  C2_amended exEmptyA "k" "v" 5 6 rfl

/-- C3 counterexample: on the never-set key `"ghost"` the variant-A proxy
UPDATE is indeed refused (`updated = false`) and creates nothing, but the
claim's final clause — "a subsequent get(k) still reports not-found" —
fails: the proxy-level GET reports `found = true` (with value
`"NOT_FOUND"`), because `ServerProxy.GET` returns `true` unconditionally. -/
theorem C3_counterexample :
    (VariantA.ServerProxy.UPDATE exEmptyA "ghost" "x" 0).2 = false ∧
    ((VariantA.ServerProxy.GET exEmptyA "ghost" 1).2).2 = true := by
  decide

/-- C3 amended: for a key absent from the store, UPDATE in both variants
returns its not-found outcome (`false` in variant A,
`("VALUE_NOT_EXIST", false)` in variant B) and leaves the whole proxy
state unchanged, so no entry is created; the subsequent STORE-level get
still reports `("NOT_FOUND", false)`, while the PROXY-level get (cache
cold) returns value `"NOT_FOUND"` with its found flag erroneously `true`. -/
theorem C3_amended (spA : VariantA.ServerProxy) (spB : VariantB.ServerProxy)
    (k v : String) (now now' : Nat)
    (hA : spA.kvs k = none) (hB : spB.kvs k = none) :
    VariantA.ServerProxy.UPDATE spA k v now = (spA, false) ∧
    VariantB.ServerProxy.UPDATE spB k v now = (spB, "VALUE_NOT_EXIST", false) ∧
    VariantA.KeyValueStore.GET spA.kvs k = ("NOT_FOUND", false) ∧
    VariantB.KeyValueStore.GET spB.kvs k = ("NOT_FOUND", false) ∧
    (spA.cache k = none →
      (VariantA.ServerProxy.GET spA k now').2 = ("NOT_FOUND", true)) ∧
    (spB.cache k = none →
      (VariantB.ServerProxy.GET spB k now').2 = ("NOT_FOUND", true)) := by
  refine ⟨?_, ?_, ?_, ?_, ?_, ?_⟩
  · simp [VariantA.ServerProxy.UPDATE, hA]
  · simp [VariantB.ServerProxy.UPDATE, VariantB.KeyValueStore.GET, hB]
  · simp [VariantA.KeyValueStore.GET, hA]
  · simp [VariantB.KeyValueStore.GET, hB]
  · intro hc
    simp [VariantA.ServerProxy.GET, VariantA.KeyValueStore.GET, hA, hc]
  · intro hc
    simp [VariantB.ServerProxy.GET, VariantB.KeyValueStore.GET, hB, hc]

/-- C3 witness: the amended statement at the concrete never-set key
`"ghost"` against freshly constructed proxies. -/
theorem C3_witness :
    VariantA.ServerProxy.UPDATE exEmptyA "ghost" "x" 0 = (exEmptyA, false) ∧
    VariantB.ServerProxy.UPDATE exEmptyB "ghost" "x" 0 =
      (exEmptyB, "VALUE_NOT_EXIST", false) ∧
    (VariantA.ServerProxy.GET exEmptyA "ghost" 1).2 = ("NOT_FOUND", true) :=
  ⟨(C3_amended exEmptyA exEmptyB "ghost" "x" 0 1 rfl rfl).1,
   (C3_amended exEmptyA exEmptyB "ghost" "x" 0 1 rfl rfl).2.1,
   (C3_amended exEmptyA exEmptyB "ghost" "x" 0 1 rfl rfl).2.2.2.2.1 rfl⟩

/-- C4 counterexample: against variant A, after `SET("name","John")` a
proxy `DELETE("name")` succeeds, yet the immediately following proxy
`GET("name")` reports `found = true` (value `"NOT_FOUND"`), refuting the
claim's clause that the get afterwards reports not-found. -/
theorem C4_counterexample :
    (VariantA.ServerProxy.DELETE exDel1 "name").2 = true ∧
    ((VariantA.ServerProxy.GET
      (VariantA.ServerProxy.DELETE exDel1 "name").1 "name" 1).2).2 = true := by
  decide

/-- C4 amended: variant-A proxy delete always evicts the key from the
cache regardless of the store outcome, and its returned outcome mirrors
the store's result (`true` iff the key was present). For a present key the
delete succeeds and afterwards the store no longer holds the key — the
store-level get reports `("NOT_FOUND", false)` — while the proxy-level
get returns value `"NOT_FOUND"` with its found flag erroneously `true`. -/
theorem C4_amended (sp : VariantA.ServerProxy) (k : String) (now : Nat) :
    (VariantA.ServerProxy.DELETE sp k).1.cache k = none ∧
    ((VariantA.ServerProxy.DELETE sp k).2 = true ↔ sp.kvs k ≠ none) ∧
    (sp.kvs k ≠ none →
      (VariantA.ServerProxy.DELETE sp k).1.kvs k = none ∧
      VariantA.KeyValueStore.GET
        (VariantA.ServerProxy.DELETE sp k).1.kvs k = ("NOT_FOUND", false) ∧
      (VariantA.ServerProxy.GET
        (VariantA.ServerProxy.DELETE sp k).1 k now).2 = ("NOT_FOUND", true)) := by
  cases hsp : sp.kvs k <;>
    simp [VariantA.ServerProxy.DELETE, VariantA.ServerProxy.GET,
          VariantA.KeyValueStore.DELETE, VariantA.KeyValueStore.GET,
          KVMap.erase, hsp]

/-- C4 witness: the amended statement after `SET("name","John")`. -/
theorem C4_witness :
    (VariantA.ServerProxy.DELETE exDel1 "name").1.kvs "name" = none ∧
    (VariantA.ServerProxy.DELETE exDel1 "name").1.cache "name" = none ∧
    (VariantA.ServerProxy.DELETE exDel1 "name").2 = true :=
  ⟨((C4_amended exDel1 "name" 1).2.2 (by decide)).1,
   (C4_amended exDel1 "name" 1).1,
   ((C4_amended exDel1 "name" 1).2.1).mpr (by decide)⟩

/-- C5 counterexample: after `SET("name","John")` the key is present in
variant B's store, yet the proxy UPDATE and DELETE both return
`("VALUE_NOT_EXIST", false)` — not `("UPDATED", true)` /
`("DELETED", true)` as the claim states — because their existence check
uses `KeyValueStore.GET`, whose found flag is always `false`; and even
the store-level success messages are `"VALUE_UPDATED"` /
`"VALUE_DELETED"`, not `"UPDATED"` / `"DELETED"`. -/
theorem C5_counterexample :
    exSetB.kvs "name" = some ⟨"John", 0⟩ ∧
    (VariantB.ServerProxy.UPDATE exSetB "name" "Alice" 1).2 =
      ("VALUE_NOT_EXIST", false) ∧
    (VariantB.ServerProxy.DELETE exSetB "name").2 = ("VALUE_NOT_EXIST", false) ∧
    (VariantB.KeyValueStore.UPDATE exSetB.kvs "name" "Alice" 1).2 =
      ("VALUE_UPDATED", true) ∧
    (VariantB.KeyValueStore.DELETE exSetB.kvs "name").2 =
      ("VALUE_DELETED", true) := by
  decide

/-- C5 amended: at the STORE level, UPDATE on an existing key returns
`("VALUE_UPDATED", true)` and DELETE `("VALUE_DELETED", true)`, and on an
absent key both return `("VALUE_NOT_EXIST", false)`; at the PROXY (and
hence connection) level, UPDATE and DELETE always return
`("VALUE_NOT_EXIST", false)`, even for existing keys, because the
existence check consults the store GET whose found flag is always false. -/
theorem C5_amended (data : KVMap) (sp : VariantB.ServerProxy)
    (k v : String) (now : Nat) :
    (data k ≠ none →
      (VariantB.KeyValueStore.UPDATE data k v now).2 = ("VALUE_UPDATED", true) ∧
      (VariantB.KeyValueStore.DELETE data k).2 = ("VALUE_DELETED", true)) ∧
    (data k = none →
      (VariantB.KeyValueStore.UPDATE data k v now).2 =
        ("VALUE_NOT_EXIST", false) ∧
      (VariantB.KeyValueStore.DELETE data k).2 = ("VALUE_NOT_EXIST", false)) ∧
    (VariantB.ServerProxy.UPDATE sp k v now).2 = ("VALUE_NOT_EXIST", false) ∧
    (VariantB.ServerProxy.DELETE sp k).2 = ("VALUE_NOT_EXIST", false) := by
  refine ⟨?_, ?_, ?_, ?_⟩
  · intro h
    cases hd : data k with
    | none => exact absurd hd h
    | some kv =>
      constructor <;>
        simp [VariantB.KeyValueStore.UPDATE, VariantB.KeyValueStore.DELETE, hd]
  · intro h
    constructor <;>
      simp [VariantB.KeyValueStore.UPDATE, VariantB.KeyValueStore.DELETE, h]
  · cases hs : sp.kvs k <;>
      simp [VariantB.ServerProxy.UPDATE, VariantB.KeyValueStore.GET, hs]
  · cases hs : sp.kvs k <;>
      simp [VariantB.ServerProxy.DELETE, VariantB.KeyValueStore.GET, hs]

/-- C5 witness: the amended statement at the concrete scenario's inputs. -/
theorem C5_witness :
    (VariantB.KeyValueStore.UPDATE exSetB.kvs "name" "Alice" 1).2 =
      ("VALUE_UPDATED", true) ∧
    (VariantB.KeyValueStore.UPDATE KVMap.empty "ghost" "x" 1).2 =
      ("VALUE_NOT_EXIST", false) ∧
    (VariantB.ServerProxy.UPDATE exSetB "name" "Alice" 1).2 =
      ("VALUE_NOT_EXIST", false) :=
  ⟨((C5_amended exSetB.kvs exSetB "name" "Alice" 1).1 (by decide)).1,
   ((C5_amended KVMap.empty exSetB "ghost" "x" 1).2.1 rfl).1,
   (C5_amended exSetB.kvs exSetB "name" "Alice" 1).2.2.1⟩

/-- C6: a single `ClearExpiredKeys` pass removes from both the store and
the cache exactly the keys whose store entry has age `now - writtenAt`
strictly greater than the TTL, and leaves every other key's store entry
and cache slot present and unchanged. Consequently, for a key written at
time `T` and never rewritten (the state evolving only by sweeps): it is
still present, unchanged, after any sequence of sweeps all taken no later
than `T + TTL`; it is absent from both maps after any sweep sequence
containing an instant past `T + TTL`; and in particular, with a sweeper of
period `sweepInterval` observed at any time `t ≥ T + TTL + sweepInterval`,
it is absent from both maps. -/
theorem C6_sweep_exact_ttl (sp : VariantA.ServerProxy) (now ttl : Nat)
    (k : String) :
    (∀ kv : KeyValue, sp.kvs k = some kv → ttl < now - kv.timestamp →
      (VariantA.ClearExpiredKeys sp now ttl).kvs k = none ∧
      (VariantA.ClearExpiredKeys sp now ttl).cache k = none) ∧
    (∀ kv : KeyValue, sp.kvs k = some kv → ¬ ttl < now - kv.timestamp →
      (VariantA.ClearExpiredKeys sp now ttl).kvs k = some kv ∧
      (VariantA.ClearExpiredKeys sp now ttl).cache k = sp.cache k) ∧
    (sp.kvs k = none →
      (VariantA.ClearExpiredKeys sp now ttl).kvs k = none ∧
      (VariantA.ClearExpiredKeys sp now ttl).cache k = sp.cache k) ∧
    (∀ (times : List Nat) (kv : KeyValue), sp.kvs k = some kv →
      (∀ u ∈ times, u ≤ kv.timestamp + ttl) →
      (VariantA.runSweeps sp times ttl).kvs k = some kv ∧
      (VariantA.runSweeps sp times ttl).cache k = sp.cache k) ∧
    (∀ (times : List Nat) (kv : KeyValue), sp.kvs k = some kv →
      (∃ u ∈ times, kv.timestamp + ttl < u) →
      (VariantA.runSweeps sp times ttl).kvs k = none ∧
      (VariantA.runSweeps sp times ttl).cache k = none) ∧
    (∀ (t interval : Nat) (kv : KeyValue), sp.kvs k = some kv →
      0 < interval → kv.timestamp + ttl + interval ≤ t →
      (VariantA.runSweeps sp (VariantA.sweepSchedule t interval) ttl).kvs k =
        none ∧
      (VariantA.runSweeps sp (VariantA.sweepSchedule t interval) ttl).cache k =
        none) := by
  refine ⟨?_, ?_, ?_, ?_, ?_, ?_⟩
  · intro kv h he; exact sweepA_expired sp now ttl k kv h he
  · intro kv h hl; exact sweepA_live sp now ttl k kv h hl
  · intro h
    constructor <;> simp [VariantA.ClearExpiredKeys, expiredAt, h]
  · intro times kv h hall; exact runSweepsA_live times ttl k kv sp h hall
  · intro times kv h hex; exact runSweepsA_expired times ttl k kv sp h hex
  · intro t interval kv h hpos hle
    have hq1 : 1 ≤ t / interval := (Nat.one_le_div_iff hpos).mpr (by omega)
    have hmem : (t / interval) * interval ∈ VariantA.sweepSchedule t interval := by
      simp only [VariantA.sweepSchedule, List.mem_map, List.mem_range]
      exact ⟨t / interval - 1, by omega, by rw [Nat.sub_add_cancel hq1]⟩
    have hbound : kv.timestamp + ttl < (t / interval) * interval := by
      have hmod := Nat.div_add_mod t interval
      have hmlt : t % interval < interval := Nat.mod_lt _ hpos
      have hcomm : (t / interval) * interval = interval * (t / interval) :=
        Nat.mul_comm _ _
      obtain ⟨A, hA⟩ : ∃ A, interval * (t / interval) = A := ⟨_, rfl⟩
      obtain ⟨B, hB⟩ : ∃ B, t % interval = B := ⟨_, rfl⟩
      rw [hA, hB] at hmod
      rw [hB] at hmlt
      rw [hcomm, hA]
      omega
    exact runSweepsA_expired (VariantA.sweepSchedule t interval) ttl k kv sp h
      ⟨(t / interval) * interval, hmem, hbound⟩

/-- C6 witness: with TTL 10, a sweep at time 20 removes the entry written
at time 0 from both maps and leaves the entry written at time 15 (and its
cache slot) unchanged; and with the sweeper's period 5, the periodic
schedule observed at time 25 has removed the old entry from both maps. -/
theorem C6_witness :
    (VariantA.ClearExpiredKeys exSweep 20 10).kvs "old" = none ∧
    (VariantA.ClearExpiredKeys exSweep 20 10).cache "old" = none ∧
    (VariantA.ClearExpiredKeys exSweep 20 10).kvs "fresh" = some ⟨"y", 15⟩ ∧
    (VariantA.ClearExpiredKeys exSweep 20 10).cache "fresh" =
      exSweep.cache "fresh" ∧
    (VariantA.runSweeps exSweep (VariantA.sweepSchedule 25 5) 10).kvs "old" =
      none ∧
    (VariantA.runSweeps exSweep (VariantA.sweepSchedule 25 5) 10).cache "old" =
      none :=
  ⟨((C6_sweep_exact_ttl exSweep 20 10 "old").1 ⟨"x", 0⟩ rfl (by decide)).1,
   ((C6_sweep_exact_ttl exSweep 20 10 "old").1 ⟨"x", 0⟩ rfl (by decide)).2,
   ((C6_sweep_exact_ttl exSweep 20 10 "fresh").2.1 ⟨"y", 15⟩ rfl (by decide)).1,
   ((C6_sweep_exact_ttl exSweep 20 10 "fresh").2.1 ⟨"y", 15⟩ rfl (by decide)).2,
   ((C6_sweep_exact_ttl exSweep 0 10 "old").2.2.2.2.2 25 5 ⟨"x", 0⟩ rfl
     (by decide) (by decide)).1,
   ((C6_sweep_exact_ttl exSweep 0 10 "old").2.2.2.2.2 25 5 ⟨"x", 0⟩ rfl
     (by decide) (by decide)).2⟩

/-- C7: the snapshot built by a backup cycle is exactly the store's
current contents (pointwise identical map, hence no partial or corrupted
entries when no writes are in flight); a fully successful cycle leaves the
destination holding exactly that snapshot, whatever it held before
(`os.Create` truncates and the encoder rewrites it); and every cycle —
including one whose file creation or JSON encoding fails — continues the
loop rather than terminating the background process. -/
theorem C7_snapshot_cycle (kvs : KVMap) (file : VariantB.BackupFile)
    (createOk encodeOk : Bool) (k : String) :
    (VariantB.snapshotOf kvs).data k = kvs k ∧
    (VariantB.backupCycle kvs file true true).1 =
      VariantB.BackupFile.holds (VariantB.snapshotOf kvs) ∧
    (VariantB.backupCycle kvs file createOk encodeOk).2 = true := by
  refine ⟨rfl, rfl, ?_⟩
  cases createOk <;> cases encodeOk <;> rfl

/-- C8 counterexample: a decoded request whose action is `"PING"` — not
one of GET/SET/DELETE/UPDATE — does NOT leave the client without a
response: in both variants `handleConnection` falls through the `switch`'s
`default:` branch to `encoder.Encode(response)` and sends the zero-valued
response envelope, refuting the claim that no envelope is sent at all. -/
theorem C8_counterexample :
    (VariantB.handleConnection exEmptyB (some ⟨"PING", "k", "v"⟩) 0).2 =
      some ⟨"", "", false, false⟩ ∧
    (VariantB.handleConnection exEmptyB (some ⟨"PING", "k", "v"⟩) 0).2 ≠
      none ∧
    (VariantA.handleConnection exEmptyA (some ⟨"PING", "k", "v"⟩) 0).2 =
      some ⟨"", false, false⟩ := by
  decide

/-- C8 amended: on any recognized-as-decoded request carrying an action
other than GET, SET, DELETE and UPDATE, the server leaves the state
untouched and encodes the zero-valued response envelope (empty value and
message, `found = false`, `success = false`) back to the client before
the connection is closed. -/
theorem C8_amended (sp : VariantB.ServerProxy) (a k v : String) (now : Nat)
    (h1 : a ≠ "GET") (h2 : a ≠ "SET") (h3 : a ≠ "DELETE") (h4 : a ≠ "UPDATE") :
    VariantB.handleConnection sp (some ⟨a, k, v⟩) now =
      (sp, some ⟨"", "", false, false⟩) := by
  simp [VariantB.handleConnection, h1, h2, h3, h4]

/-- C8 witness: the amended statement at the concrete action `"PING"`. -/
theorem C8_witness :
    VariantB.handleConnection exEmptyB (some ⟨"PING", "k", "v"⟩) 0 =
      (exEmptyB, some ⟨"", "", false, false⟩) :=
  C8_amended exEmptyB "PING" "k" "v" 0 (by decide) (by decide) (by decide)
    (by decide)

/-- C9 counterexample: variant A's `ServerProxy.GET` (`kvs-server.go`
lines 96–106) acquires no lock at all — on every path (cache hit or miss,
store found or not) its event trace fails the held-for-full-duration
property, refuting the claim that every public proxy operation holds the
proxy mutex for its full duration. -/
theorem C9_counterexample :
    heldThroughout (VariantA.GETtrace true true) = false ∧
    heldThroughout (VariantA.GETtrace true false) = false ∧
    heldThroughout (VariantA.GETtrace false true) = false ∧
    heldThroughout (VariantA.GETtrace false false) = false := by
  decide

/-- C9 amended: every public proxy operation EXCEPT variant A's GET holds
the proxy's single mutex for its full duration, spanning the cache-map
accesses and the nested store calls: variant A's SET, UPDATE and DELETE
do on every path, and all four of variant B's operations do on every
path; variant A's GET performs its cache read, nested store call and
cache populate without acquiring the mutex, so its miss-then-populate
sequence is not atomic with respect to other proxy operations. -/
theorem C9_amended :
    (∀ present inCache : Bool,
      heldThroughout VariantA.SETtrace = true ∧
      heldThroughout (VariantA.UPDATEtrace present inCache) = true ∧
      heldThroughout VariantA.DELETEtrace = true) ∧
    (∀ hit storeFound ok : Bool,
      heldThroughout (VariantB.GETtrace hit storeFound) = true ∧
      heldThroughout VariantB.SETtrace = true ∧
      heldThroughout (VariantB.UPDATEtrace ok) = true ∧
      heldThroughout (VariantB.DELETEtrace ok) = true) := by
  refine ⟨?_, ?_⟩
  · intro present inCache
    cases present <;> cases inCache <;> exact (by decide)
  · intro hit storeFound ok
    cases hit <;> cases storeFound <;> cases ok <;> exact (by decide)

/-- C10: for an absent key, the store-level GET of both variants returns
the literal string `"NOT_FOUND"` in its value position (with
`found = false`), not the empty string; and for a key whose stored value
is the string `"NOT_FOUND"`, the value returned is the same string — in
variant A only the found flag distinguishes the two cases, and in variant
B (whose GET returns `false` on both paths) the full results coincide. -/
theorem C10_not_found_sentinel (data : KVMap) (k : String) (ts : Nat) :
    (data k = none →
      VariantA.KeyValueStore.GET data k = ("NOT_FOUND", false) ∧
      VariantB.KeyValueStore.GET data k = ("NOT_FOUND", false)) ∧
    (data k = some ⟨"NOT_FOUND", ts⟩ →
      (VariantA.KeyValueStore.GET data k).1 = "NOT_FOUND" ∧
      VariantB.KeyValueStore.GET data k = ("NOT_FOUND", false)) := by
  constructor <;> intro h <;>
    simp [VariantA.KeyValueStore.GET, VariantB.KeyValueStore.GET, h]

/-- C10 witness: the theorem at an empty store and at a store whose key
`"weird"` holds the literal value `"NOT_FOUND"`. -/
theorem C10_witness :
    VariantA.KeyValueStore.GET KVMap.empty "ghost" = ("NOT_FOUND", false) ∧
    (VariantA.KeyValueStore.GET exMapNF "weird").1 = "NOT_FOUND" ∧
    VariantB.KeyValueStore.GET exMapNF "weird" = ("NOT_FOUND", false) :=
  ⟨((C10_not_found_sentinel KVMap.empty "ghost" 0).1 rfl).1,
   ((C10_not_found_sentinel exMapNF "weird" 7).2 (by decide)).1,
   ((C10_not_found_sentinel exMapNF "weird" 7).2 (by decide)).2⟩
